import Mathlib

/-!
Verification of the renderer backend interface contract of
`src/engine/src/renderer/renderer_types.inl` (KohiGameEngine).

The repository ships only the interface declaration: a struct of function
pointers with documentation comments.  We embed two layers:

1. the C signatures themselves, as data (`interface_op`, `renderer_backend_ops`),
   transcribed field by field from the header; and
2. the behavioural contract of each operation.  Since no concrete backend
   implementation is under `src/`, the behaviour is modelled from the spec
   (frame lifecycle state machine, renderpass state machine, global shader
   state, resource lifecycle); each such definition says so in its doc string.

Machine integers: `frame_number` is declared `u64` in the header, so it is a
`Nat` kept below `2^64` and incremented modulo `2^64`.
-/

/-- 2^64, the modulus of the `u64` type of `frame_number`. -/
def U64_MOD : Nat := 18446744073709551616

/-- Opaque 4x4 matrix value type (math library collaborator; the spec treats
matrices as immutable value blobs with no internal structure assumed). -/
structure mat4 where
  bits : Nat
deriving DecidableEq, Repr

/-- Opaque 3-component vector value type. -/
structure vec3 where
  bits : Nat
deriving DecidableEq, Repr

/-- Opaque 4-component vector (colour) value type. -/
structure vec4 where
  bits : Nat
deriving DecidableEq, Repr

/-- Opaque 32-bit float value type (`f32`), carried by value and never
inspected by this interface layer. -/
structure f32 where
  bits : Nat
deriving DecidableEq, Repr

/-- The `builtin_renderpass` enum value `BUILTIN_RENDERPASS_WORLD = 0x01`
(renderer_types.inl line 19). -/
def BUILTIN_RENDERPASS_WORLD : Nat := 0x01

/-- The `builtin_renderpass` enum value `BUILTIN_RENDERPASS_UI = 0x02`
(renderer_types.inl line 20). -/
def BUILTIN_RENDERPASS_UI : Nat := 0x02

/-- Modelled from the spec: `geometry` (declared in resource_types.h, which is
not under src/) is an opaque handle to GPU-resident vertex/index buffers. -/
structure geometry where
  id : Nat
deriving DecidableEq, Repr

/-- `geometry_render_data` (renderer_types.inl lines 13-16): a model transform
paired with a non-owning reference to a geometry handle. -/
structure geometry_render_data where
  model : mat4
  geometry : geometry
deriving DecidableEq, Repr

/-- Modelled from the spec: `texture` (declared in resource_types.h, not under
src/) is a caller-owned descriptor whose backend-owned internal field is
populated in place by `create_texture`. -/
structure texture where
  id : Nat
  internal_data : Option Nat
deriving DecidableEq, Repr

/-- Modelled from the spec: `material` (declared in resource_types.h, not under
src/) bundles one or more textures; the referenced textures are separately
owned and may be shared. -/
structure material where
  id : Nat
  referenced_textures : List Nat
deriving DecidableEq, Repr

/-- The `renderer_backend` struct's data fields (renderer_types.inl line 31):
besides the function pointers it holds exactly one field, `u64 frame_number`.
The `Nat` is kept below `U64_MOD`. -/
structure renderer_backend where
  frame_number : Nat
deriving DecidableEq, Repr

/-- Modelled from the spec: the global world shader state set by
`update_global_world_state` — projection matrix, view matrix, view position,
ambient colour and render mode. -/
structure global_world_state where
  projection : mat4
  view : mat4
  view_position : vec3
  ambient_colour : vec4
  mode : Int
deriving DecidableEq, Repr

/-- Modelled from the spec: the global UI shader state set by
`update_global_ui_state` — projection matrix, view matrix and render mode
(no view position and no ambient colour). -/
structure global_ui_state where
  projection : mat4
  view : mat4
  mode : Int
deriving DecidableEq, Repr

/-- Modelled from the spec: the backend-internal global shader state, one
sub-record per renderpass kind. -/
structure GlobalState where
  world : global_world_state
  ui : global_ui_state
deriving DecidableEq, Repr

/-- Modelled from the spec: one GPU-side texture allocation made by
`create_texture` — an internal resource id plus the uploaded pixel data. -/
structure gpu_texture where
  id : Nat
  pixels : List Nat
deriving DecidableEq, Repr

/-- Modelled from the spec: one GPU-side geometry allocation made by
`create_geometry`: the vertex buffer and the index buffer are uploaded as a
single record, so either both exist or neither does. -/
structure gpu_geometry where
  id : Nat
  vertex_size : Nat
  vertex_count : Nat
  vertices : List Nat
  index_size : Nat
  index_count : Nat
  indices : List Nat
deriving DecidableEq, Repr

/-- Modelled from the spec: the backend-internal GPU resource bookkeeping for
textures, materials and geometries. -/
structure ResourceState where
  texture_resources : List gpu_texture
  material_resources : List Nat
  geometry_resources : List gpu_geometry
deriving DecidableEq, Repr

/-- Modelled from the spec: backend-internal state not visible in the
`renderer_backend` struct — the frame lifecycle flag (Idle vs FrameActive),
the renderpass state machine (NoneActive vs PassActive id), the global shader
state and the resource bookkeeping. -/
structure BackendInternal where
  frame_active : Bool
  active_pass : Option Nat
  globals : GlobalState
  resources : ResourceState
deriving DecidableEq, Repr

/-- The complete state of one backend instance: the `renderer_backend` struct
(frame_number) plus the backend-internal state. -/
structure State where
  backend : renderer_backend
  internal : BackendInternal
deriving DecidableEq, Repr

/-- Modelled from the spec: `begin_frame(backend, delta_time)` transitions
Idle to FrameActive and returns true, or returns false (re-entrancy, or the
backend transiently unable to render — modelled by the `can_render` oracle)
leaving the state unchanged.  It never touches `frame_number`. -/
def begin_frame (s : State) (_delta_time : f32) (can_render : Bool) : Bool × State :=
  if s.internal.frame_active then
    (false, s)
  else if can_render then
    (true, { s with internal := { s.internal with frame_active := true } })
  else
    (false, s)

/-- Modelled from the spec: `end_frame(backend, delta_time)` transitions
FrameActive to Idle, performs presentation and increments `frame_number`
(a `u64`, hence modulo 2^64).  Calling it while Idle is a caller error,
rejected defensively with false and no state change. -/
def end_frame (s : State) (_delta_time : f32) : Bool × State :=
  if s.internal.frame_active then
    (true,
      { backend := { frame_number := (s.backend.frame_number + 1) % U64_MOD },
        internal := { s.internal with frame_active := false, active_pass := none } })
  else
    (false, s)

/-- Modelled from the spec: `begin_renderpass(backend, renderpass_id)` is
valid only while FrameActive and NoneActive; it fails if another pass is
already active or if called outside a frame. -/
def begin_renderpass (s : State) (renderpass_id : Nat) : Bool × State :=
  if s.internal.frame_active && s.internal.active_pass.isNone then
    (true, { s with internal := { s.internal with active_pass := some renderpass_id } })
  else
    (false, s)

/-- Modelled from the spec: `end_renderpass(backend, renderpass_id)` must
reference the currently active pass id; a mismatched id, or no active pass,
is a caller error rejected with false and no state change. -/
def end_renderpass (s : State) (renderpass_id : Nat) : Bool × State :=
  match s.internal.active_pass with
  | some id =>
      if id = renderpass_id then
        (true, { s with internal := { s.internal with active_pass := none } })
      else
        (false, s)
  | none => (false, s)

/-- Modelled from the spec: `update_global_world_state(projection, view,
view_position, ambient_colour, mode)` sets exactly the world sub-record of
the global shader state.  Per its C signature it receives no backend
pointer, so it operates on the global state alone. -/
def update_global_world_state (g : GlobalState) (projection : mat4) (view : mat4)
    (view_position : vec3) (ambient_colour : vec4) (mode : Int) : GlobalState :=
  { g with world := ⟨projection, view, view_position, ambient_colour, mode⟩ }

/-- Modelled from the spec: `update_global_ui_state(projection, view, mode)`
sets exactly the UI sub-record of the global shader state (no view position,
no ambient colour).  Per its C signature it receives no backend pointer. -/
def update_global_ui_state (g : GlobalState) (projection : mat4) (view : mat4)
    (mode : Int) : GlobalState :=
  { g with ui := ⟨projection, view, mode⟩ }

/-- Modelled from the spec: the draw command a backend emits for one
`draw_geometry` call — the render data plus the global shader state the draw
implicitly uses at that moment. -/
structure draw_call where
  data : geometry_render_data
  globals_used : GlobalState
deriving DecidableEq, Repr

/-- Modelled from the spec: `draw_geometry(data)` draws the given geometry
using the current global shader state.  Per its C signature it receives no
backend pointer and returns nothing. -/
def draw_geometry (g : GlobalState) (data : geometry_render_data) : draw_call :=
  ⟨data, g⟩

/-- Modelled from the spec: `create_texture(pixels, out_texture)` uploads the
pixel data and populates the backend-owned `internal_data` field of the out
texture.  Its C signature returns void: there is no recoverable failure path
at the interface (it succeeds or aborts fatally), so the model is total. -/
def create_texture (rs : ResourceState) (pixels : List Nat) (t : texture) :
    texture × ResourceState :=
  ({ t with internal_data := some t.id },
   { rs with texture_resources := ⟨t.id, pixels⟩ :: rs.texture_resources })

/-- Modelled from the spec: `destroy_texture(texture)` releases the backend
resources of the given texture. -/
def destroy_texture (rs : ResourceState) (t : texture) : ResourceState :=
  { rs with texture_resources := rs.texture_resources.filter (fun r => r.id ≠ t.id) }

/-- Modelled from the spec: `create_material(material)` may fail recoverably
(e.g. no texture slots for required bindings — modelled by the `ok` oracle)
and reports failure through its b8 result without generating a partial or
leaking resource: on failure the resource state is returned unchanged. -/
def create_material (rs : ResourceState) (m : material) (ok : Bool) : Bool × ResourceState :=
  if ok then
    (true, { rs with material_resources := m.id :: rs.material_resources })
  else
    (false, rs)

/-- Modelled from the spec: `destroy_material(material)` is unconditional and
never fails (its C signature returns void); it releases the material's own
resources and does not touch the textures the material references. -/
def destroy_material (rs : ResourceState) (m : material) : ResourceState :=
  { rs with material_resources := rs.material_resources.filter (fun r => r ≠ m.id) }

/-- Modelled from the spec: `create_geometry(geometry, vertex_size,
vertex_count, vertices, index_size, index_count, indices)` uploads the vertex
and index buffers as one atomic operation (a single `gpu_geometry` record);
failure (modelled by the `ok` oracle) is reported through the b8 result and
leaves no GPU-side allocation: the resource state is returned unchanged. -/
def create_geometry (rs : ResourceState) (g : geometry) (vertex_size vertex_count : Nat)
    (vertices : List Nat) (index_size index_count : Nat) (indices : List Nat)
    (ok : Bool) : Bool × ResourceState :=
  if ok then
    (true, { rs with geometry_resources :=
      ⟨g.id, vertex_size, vertex_count, vertices, index_size, index_count, indices⟩
        :: rs.geometry_resources })
  else
    (false, rs)

/-- Modelled from the spec: `destroy_geometry(geometry)` is unconditional and
releases the geometry's GPU buffers. -/
def destroy_geometry (rs : ResourceState) (g : geometry) : ResourceState :=
  { rs with geometry_resources := rs.geometry_resources.filter (fun r => r.id ≠ g.id) }

/-- A C parameter type appearing in the `renderer_backend` function pointer
declarations (renderer_types.inl lines 40-177). -/
inductive c_param_type where
  | backend_ptr
  | const_char_ptr
  | u16_t
  | f32_t
  | u8_t
  | mat4_t
  | vec3_t
  | vec4_t
  | i32_t
  | geometry_render_data_t
  | const_u8_ptr
  | texture_ptr
  | material_ptr
  | geometry_ptr
  | u32_t
  | const_void_ptr
deriving DecidableEq, Repr

/-- The signature of one `renderer_backend` interface operation: its name, its
parameter list in order, and whether its return type is `b8` (true) or `void`
(false). -/
structure interface_op where
  name : String
  params : List c_param_type
  returns_b8 : Bool
deriving DecidableEq, Repr

/-- The sixteen function pointer declarations of the `renderer_backend` struct,
transcribed in order from renderer_types.inl lines 40-177. -/
def renderer_backend_ops : List interface_op :=
  [⟨"initialize", [.backend_ptr, .const_char_ptr], true⟩,
   ⟨"shutdown", [.backend_ptr], false⟩,
   ⟨"resized", [.backend_ptr, .u16_t, .u16_t], false⟩,
   ⟨"begin_frame", [.backend_ptr, .f32_t], true⟩,
   ⟨"update_global_world_state", [.mat4_t, .mat4_t, .vec3_t, .vec4_t, .i32_t], false⟩,
   ⟨"update_global_ui_state", [.mat4_t, .mat4_t, .i32_t], false⟩,
   ⟨"end_frame", [.backend_ptr, .f32_t], true⟩,
   ⟨"begin_renderpass", [.backend_ptr, .u8_t], true⟩,
   ⟨"end_renderpass", [.backend_ptr, .u8_t], true⟩,
   ⟨"draw_geometry", [.geometry_render_data_t], false⟩,
   ⟨"create_texture", [.const_u8_ptr, .texture_ptr], false⟩,
   ⟨"destroy_texture", [.texture_ptr], false⟩,
   ⟨"create_material", [.material_ptr], true⟩,
   ⟨"destroy_material", [.material_ptr], false⟩,
   ⟨"create_geometry", [.geometry_ptr, .u32_t, .u32_t, .const_void_ptr, .u32_t, .u32_t, .const_void_ptr], true⟩,
   ⟨"destroy_geometry", [.geometry_ptr], false⟩]

/-- Look up an interface operation's signature by name. -/
def op_sig (s : String) : Option interface_op :=
  renderer_backend_ops.find? (fun o => o.name == s)

/-- Whether an operation's C signature receives a `renderer_backend*`. -/
def takes_backend (o : interface_op) : Bool :=
  o.params.contains .backend_ptr

/-- An invocation of one interface operation, with its arguments and with the
oracle bits that stand for backend-internal conditions (transient inability
to render, recoverable resource exhaustion). -/
inductive Op where
  | op_begin_frame (delta_time : f32) (can_render : Bool)
  | op_end_frame (delta_time : f32)
  | op_begin_renderpass (renderpass_id : Nat)
  | op_end_renderpass (renderpass_id : Nat)
  | op_update_global_world_state (projection : mat4) (view : mat4)
      (view_position : vec3) (ambient_colour : vec4) (mode : Int)
  | op_update_global_ui_state (projection : mat4) (view : mat4) (mode : Int)
  | op_draw_geometry (data : geometry_render_data)
  | op_create_texture (pixels : List Nat) (t : texture)
  | op_destroy_texture (t : texture)
  | op_create_material (m : material) (ok : Bool)
  | op_destroy_material (m : material)
  | op_create_geometry (g : geometry) (vertex_size vertex_count : Nat)
      (vertices : List Nat) (index_size index_count : Nat) (indices : List Nat) (ok : Bool)
  | op_destroy_geometry (g : geometry)
deriving DecidableEq, Repr

/-- Applies one interface invocation to the full backend state (success flags
are dropped: a failed call leaves the state unchanged by construction of the
individual operations).  Operations whose C signature has no backend pointer
act on the backend-internal global/resource state only. -/
def step (op : Op) (s : State) : State :=
  match op with
  | .op_begin_frame d c => (begin_frame s d c).2
  | .op_end_frame d => (end_frame s d).2
  | .op_begin_renderpass id => (begin_renderpass s id).2
  | .op_end_renderpass id => (end_renderpass s id).2
  | .op_update_global_world_state p v vp ac m =>
      { s with internal := { s.internal with
          globals := update_global_world_state s.internal.globals p v vp ac m } }
  | .op_update_global_ui_state p v m =>
      { s with internal := { s.internal with
          globals := update_global_ui_state s.internal.globals p v m } }
  | .op_draw_geometry _ => s
  | .op_create_texture pixels t =>
      { s with internal := { s.internal with
          resources := (create_texture s.internal.resources pixels t).2 } }
  | .op_destroy_texture t =>
      { s with internal := { s.internal with
          resources := destroy_texture s.internal.resources t } }
  | .op_create_material m ok =>
      { s with internal := { s.internal with
          resources := (create_material s.internal.resources m ok).2 } }
  | .op_destroy_material m =>
      { s with internal := { s.internal with
          resources := destroy_material s.internal.resources m } }
  | .op_create_geometry g vsz vc vtx isz ic idx ok =>
      { s with internal := { s.internal with
          resources := (create_geometry s.internal.resources g vsz vc vtx isz ic idx ok).2 } }
  | .op_destroy_geometry g =>
      { s with internal := { s.internal with
          resources := destroy_geometry s.internal.resources g } }

/-- The state of a backend instance right after `initialize`: frame_number 0,
Idle, NoneActive, zeroed global state, no GPU resources. -/
def initState : State :=
  { backend := { frame_number := 0 },
    internal :=
      { frame_active := false,
        active_pass := none,
        globals := ⟨⟨⟨0⟩, ⟨0⟩, ⟨0⟩, ⟨0⟩, 0⟩, ⟨⟨0⟩, ⟨0⟩, 0⟩⟩,
        resources := ⟨[], [], []⟩ } }

/-- A backend state reachable from the freshly initialized instance by some
sequence of interface invocations. -/
inductive Reachable : State → Prop where
  | init : Reachable initState
  | step (op : Op) {s : State} : Reachable s → Reachable (step op s)

/-- A fixed delta_time value (the operations never inspect it). -/
def dt0 : f32 := ⟨0⟩

/-- One successful frame: `begin_frame` (with the backend able to render)
followed by `end_frame`. -/
def oneFrame (s : State) : State :=
  step (Op.op_end_frame dt0) (step (Op.op_begin_frame dt0 true) s)

/-- `n` successful frames in sequence. -/
def runFrames : Nat → State → State
  | 0, s => s
  | Nat.succ n, s => runFrames n (oneFrame s)

/-- The backend state after 2^64 - 1 completed frames: its `frame_number`
holds the largest `u64` value. -/
def wrapState : State := runFrames (U64_MOD - 1) initState

/-- A concrete FrameActive/NoneActive state: the freshly initialized backend
right after a successful `begin_frame`. -/
def frameState : State := (begin_frame initState dt0 true).2

/-- A concrete state in which renderpass WORLD is active. -/
def worldPassState : State := (begin_renderpass frameState BUILTIN_RENDERPASS_WORLD).2

/-- A concrete empty resource state. -/
def emptyResources : ResourceState := ⟨[], [], []⟩

/-- A concrete FrameActive state whose `frame_number` holds the largest `u64`
value `2^64 - 1`. -/
def maxFrameState : State :=
  { backend := { frame_number := U64_MOD - 1 },
    internal :=
      { frame_active := true,
        active_pass := none,
        globals := ⟨⟨⟨0⟩, ⟨0⟩, ⟨0⟩, ⟨0⟩, 0⟩, ⟨⟨0⟩, ⟨0⟩, 0⟩⟩,
        resources := emptyResources } }

theorem begin_frame_idle (s : State) (d : f32) (h : s.internal.frame_active = false) :
    begin_frame s d true =
      (true, { s with internal := { s.internal with frame_active := true } }) := by
  simp [begin_frame, h]

theorem end_frame_active (s : State) (d : f32) (h : s.internal.frame_active = true) :
    end_frame s d =
      (true,
        { backend := { frame_number := (s.backend.frame_number + 1) % U64_MOD },
          internal := { s.internal with frame_active := false, active_pass := none } }) := by
  simp [end_frame, h]

theorem oneFrame_spec (s : State) (h : s.internal.frame_active = false) :
    (oneFrame s).internal.frame_active = false ∧
    (oneFrame s).backend.frame_number = (s.backend.frame_number + 1) % U64_MOD := by
  simp [oneFrame, step, begin_frame, end_frame, h]

theorem runFrames_spec (n : Nat) (s : State) (h : s.internal.frame_active = false)
    (hlt : s.backend.frame_number < U64_MOD) :
    (runFrames n s).internal.frame_active = false ∧
    (runFrames n s).backend.frame_number = (s.backend.frame_number + n) % U64_MOD := by
  induction n generalizing s with
  | zero =>
      exact ⟨by simpa [runFrames] using h,
        by simpa [runFrames] using (Nat.mod_eq_of_lt hlt).symm⟩
  | succ n ih =>
      obtain ⟨h1, h2⟩ := oneFrame_spec s h
      have hlt' : (oneFrame s).backend.frame_number < U64_MOD := by
        rw [h2]; exact Nat.mod_lt _ (by simp [U64_MOD])
      obtain ⟨h3, h4⟩ := ih (oneFrame s) h1 hlt'
      refine ⟨by simpa [runFrames] using h3, ?_⟩
      rw [runFrames]
      rw [h4, h2]
      simp [U64_MOD] at *
      omega

theorem reachable_oneFrame {s : State} (h : Reachable s) : Reachable (oneFrame s) :=
  Reachable.step _ (Reachable.step _ h)

theorem reachable_runFrames (n : Nat) {s : State} (h : Reachable s) :
    Reachable (runFrames n s) := by
  induction n generalizing s with
  | zero => simpa [runFrames] using h
  | succ n ih => rw [runFrames]; exact ih (reachable_oneFrame h)

theorem wrapState_eq : wrapState = runFrames (U64_MOD - 1) initState := rfl

theorem wrapState_idle : wrapState.internal.frame_active = false := by
  rw [wrapState_eq]
  exact (runFrames_spec (U64_MOD - 1) initState rfl (by simp [initState, U64_MOD])).1

theorem wrapState_frame_number : wrapState.backend.frame_number = U64_MOD - 1 := by
  rw [wrapState_eq,
    (runFrames_spec (U64_MOD - 1) initState rfl (by simp [initState, U64_MOD])).2]
  have h3 : initState.backend.frame_number = 0 := rfl
  rw [h3]
  have h4 : U64_MOD = 18446744073709551616 := rfl
  rw [h4]

theorem frame_pair_wraps (s : State) (h : s.internal.frame_active = false)
    (hn : s.backend.frame_number = U64_MOD - 1) :
    (begin_frame s dt0 true).1 = true ∧
    (end_frame (begin_frame s dt0 true).2 dt0).1 = true ∧
    (end_frame (begin_frame s dt0 true).2 dt0).2.backend.frame_number ≠
      s.backend.frame_number + 1 := by
  rw [begin_frame_idle s dt0 h]
  rw [end_frame_active _ dt0 rfl]
  simp only []
  rw [hn]
  have h4 : U64_MOD = 18446744073709551616 := rfl
  rw [h4]
  norm_num

/-- C1 is refuted at the wrap point of the `u64` counter: in the reachable
state with `frame_number = 2^64 - 1`, a successful `begin_frame` → `end_frame`
pair leaves `frame_number = 0`, not `frame_number + 1`. -/
theorem c1_counterexample :
    Reachable wrapState ∧
    ((begin_frame wrapState dt0 true).1 = true ∧
     (end_frame (begin_frame wrapState dt0 true).2 dt0).1 = true ∧
     (end_frame (begin_frame wrapState dt0 true).2 dt0).2.backend.frame_number ≠
       wrapState.backend.frame_number + 1) :=
  ⟨wrapState_eq ▸ reachable_runFrames _ Reachable.init,
   frame_pair_wraps wrapState wrapState_idle wrapState_frame_number⟩

/-- C1 (amended): for every successful `begin_frame`→`end_frame` pair,
`end_frame` increments the `u64` `frame_number` modulo 2^64 — an increase by
exactly 1 whenever `frame_number + 1 < 2^64`, wrapping to 0 otherwise — and
`begin_frame` never changes `frame_number`; in particular every `begin_frame`
call that returns false leaves the whole backend state, hence `frame_number`,
unchanged. -/
theorem c1_frame_number_increment (s : State) (d : f32) (c : Bool)
    (h1 : (begin_frame s d c).1 = true)
    (_h2 : (end_frame (begin_frame s d c).2 d).1 = true) :
    (end_frame (begin_frame s d c).2 d).2.backend.frame_number =
      (s.backend.frame_number + 1) % U64_MOD ∧
    (s.backend.frame_number + 1 < U64_MOD →
      (end_frame (begin_frame s d c).2 d).2.backend.frame_number =
        s.backend.frame_number + 1) ∧
    (begin_frame s d c).2.backend.frame_number = s.backend.frame_number ∧
    (∀ s' d' c', (begin_frame s' d' c').1 = false → (begin_frame s' d' c').2 = s') := by
  have hf : s.internal.frame_active = false := by
    cases hfa : s.internal.frame_active
    · rfl
    · simp [begin_frame, hfa] at h1
  have hc : c = true := by
    cases hcc : c
    · rw [hcc] at h1; simp [begin_frame, hf] at h1
    · rfl
  rw [hc]
  rw [begin_frame_idle s d hf]
  rw [end_frame_active _ d rfl]
  refine ⟨rfl, fun h => Nat.mod_eq_of_lt h, rfl, ?_⟩
  intro s' d' c' h'
  by_cases hfa : s'.internal.frame_active = true
  · simp [begin_frame, hfa]
  · have hfa' : s'.internal.frame_active = false := by simpa using hfa
    cases hcc : c'
    · simp [begin_frame, hfa']
    · rw [hcc] at h'
      rw [begin_frame_idle s' d' hfa'] at h'
      simp at h'

/-- C1 witness: on the freshly initialized backend (frame_number 0) the pair
succeeds and leaves frame_number 1, and a begin_frame that returns false
leaves the state unchanged. -/
theorem c1_frame_number_increment_witness :
    (end_frame (begin_frame initState dt0 true).2 dt0).2.backend.frame_number =
      initState.backend.frame_number + 1 ∧
    (begin_frame initState dt0 false).2 = initState := by
  have h := c1_frame_number_increment initState dt0 true (by decide) (by decide)
  exact ⟨h.2.1 (by norm_num [initState, U64_MOD]),
         h.2.2.2 initState dt0 false (by decide)⟩

/-- C9: `frame_number` is an unsigned 64-bit counter: `end_frame` increments
it modulo 2^64, so the increase is exactly 1 precisely while
`frame_number + 1 < 2^64`, and the counter wraps to 0 from 2^64 - 1. -/
theorem c9_frame_number_u64 (s : State) (d : f32)
    (hA : s.internal.frame_active = true) (_hlt : s.backend.frame_number < U64_MOD) :
    (end_frame s d).1 = true ∧
    (end_frame s d).2.backend.frame_number = (s.backend.frame_number + 1) % U64_MOD ∧
    (end_frame s d).2.backend.frame_number < U64_MOD ∧
    (s.backend.frame_number + 1 < U64_MOD →
      (end_frame s d).2.backend.frame_number = s.backend.frame_number + 1) ∧
    (s.backend.frame_number = U64_MOD - 1 →
      (end_frame s d).2.backend.frame_number = 0) := by
  rw [end_frame_active s d hA]
  refine ⟨rfl, rfl, Nat.mod_lt _ (by simp [U64_MOD]), fun h => Nat.mod_eq_of_lt h, ?_⟩
  intro h
  show (s.backend.frame_number + 1) % U64_MOD = 0
  rw [h]
  have h4 : U64_MOD = 18446744073709551616 := rfl
  rw [h4]

/-- C9 witness: at the concrete FrameActive state with frame_number 2^64 - 1,
end_frame succeeds and the counter wraps to 0. -/
theorem c9_frame_number_u64_witness :
    (end_frame maxFrameState dt0).1 = true ∧
    (end_frame maxFrameState dt0).2.backend.frame_number = 0 := by
  have h := c9_frame_number_u64 maxFrameState dt0 rfl (by norm_num [maxFrameState, U64_MOD])
  exact ⟨h.1, h.2.2.2.2 rfl⟩

/-- C2: in every reachable backend state at most one renderpass is active,
and `begin_renderpass(id)` fails whenever another pass is already active or
whenever it is called outside an active frame; it returns true exactly in the
FrameActive/NoneActive state. -/
theorem c2_single_active_renderpass (s : State) (_hr : Reachable s) :
    (∀ i j, s.internal.active_pass = some i → s.internal.active_pass = some j → i = j) ∧
    (∀ id, s.internal.active_pass ≠ none → (begin_renderpass s id).1 = false) ∧
    (∀ id, s.internal.frame_active = false → (begin_renderpass s id).1 = false) ∧
    (∀ id, (begin_renderpass s id).1 = true ↔
      (s.internal.frame_active = true ∧ s.internal.active_pass = none)) := by
  refine ⟨?_, ?_, ?_, ?_⟩
  · intro i j hi hj
    rw [hi] at hj
    exact Option.some.inj hj
  · intro id hp
    have hn : s.internal.active_pass.isNone = false := by
      cases hap : s.internal.active_pass
      · exact absurd hap hp
      · simp
    simp [begin_renderpass, hn]
  · intro id hf
    simp [begin_renderpass, hf]
  · intro id
    constructor
    · intro h
      cases hf : s.internal.frame_active
      · simp [begin_renderpass, hf] at h
      · cases hap : s.internal.active_pass
        · exact ⟨rfl, rfl⟩
        · simp [begin_renderpass, hf, hap] at h
    · intro ⟨hf, hap⟩
      simp [begin_renderpass, hf, hap]

/-- C2 witness: the freshly initialized backend is reachable and Idle, so
begin_renderpass(WORLD) is rejected there, and no pass is active. -/
theorem c2_single_active_renderpass_witness :
    (begin_renderpass initState BUILTIN_RENDERPASS_WORLD).1 = false := by
  have h := c2_single_active_renderpass initState Reachable.init
  exact h.2.2.1 BUILTIN_RENDERPASS_WORLD rfl

/-- C3: while renderpass WORLD is active, `end_renderpass(UI)` is rejected;
in general `end_renderpass(id)` returns true exactly when `id` equals the
currently active pass id. -/
theorem c3_end_renderpass_id_mismatch (s : State)
    (h : s.internal.active_pass = some BUILTIN_RENDERPASS_WORLD) :
    (end_renderpass s BUILTIN_RENDERPASS_UI).1 = false ∧
    (∀ s' id, (end_renderpass s' id).1 = true ↔ s'.internal.active_pass = some id) := by
  constructor
  · simp [end_renderpass, h, BUILTIN_RENDERPASS_WORLD, BUILTIN_RENDERPASS_UI]
  · intro s' id
    constructor
    · intro h'
      cases hap : s'.internal.active_pass with
      | none => simp [end_renderpass, hap] at h'
      | some i =>
          by_cases hi : i = id
          · rw [hi]
          · simp [end_renderpass, hap, hi] at h'
    · intro hap
      simp [end_renderpass, hap]

/-- C3 witness: in the concrete state where WORLD is active,
end_renderpass(UI) returns false. -/
theorem c3_end_renderpass_id_mismatch_witness :
    (end_renderpass worldPassState BUILTIN_RENDERPASS_UI).1 = false :=
  (c3_end_renderpass_id_mismatch worldPassState (by decide)).1

/-- C4: in any FrameActive/NoneActive state, begin_renderpass(WORLD)
immediately followed by end_renderpass(WORLD) with no intervening draws is
legal — both calls return true — and the resulting state is again
NoneActive while remaining FrameActive. -/
theorem c4_world_pass_begin_end_legal (s : State)
    (hf : s.internal.frame_active = true) (hn : s.internal.active_pass = none) :
    (begin_renderpass s BUILTIN_RENDERPASS_WORLD).1 = true ∧
    (end_renderpass (begin_renderpass s BUILTIN_RENDERPASS_WORLD).2
      BUILTIN_RENDERPASS_WORLD).1 = true ∧
    (end_renderpass (begin_renderpass s BUILTIN_RENDERPASS_WORLD).2
      BUILTIN_RENDERPASS_WORLD).2.internal.active_pass = none ∧
    (end_renderpass (begin_renderpass s BUILTIN_RENDERPASS_WORLD).2
      BUILTIN_RENDERPASS_WORLD).2.internal.frame_active = true := by
  have hb : begin_renderpass s BUILTIN_RENDERPASS_WORLD =
      (true, { s with internal :=
        { s.internal with active_pass := some BUILTIN_RENDERPASS_WORLD } }) := by
    simp [begin_renderpass, hf, hn]
  rw [hb]
  refine ⟨rfl, ?_, ?_, ?_⟩
  · simp [end_renderpass]
  · simp [end_renderpass]
  · simp [end_renderpass, hf]

/-- C4 witness: from the concrete FrameActive/NoneActive state after a
successful begin_frame, the WORLD begin/end pair succeeds and returns to
NoneActive while still FrameActive. -/
theorem c4_world_pass_begin_end_legal_witness :
    (begin_renderpass frameState BUILTIN_RENDERPASS_WORLD).1 = true ∧
    (end_renderpass (begin_renderpass frameState BUILTIN_RENDERPASS_WORLD).2
      BUILTIN_RENDERPASS_WORLD).1 = true ∧
    (end_renderpass (begin_renderpass frameState BUILTIN_RENDERPASS_WORLD).2
      BUILTIN_RENDERPASS_WORLD).2.internal.active_pass = none ∧
    (end_renderpass (begin_renderpass frameState BUILTIN_RENDERPASS_WORLD).2
      BUILTIN_RENDERPASS_WORLD).2.internal.frame_active = true :=
  c4_world_pass_begin_end_legal frameState (by decide) (by decide)

/-- C5: `update_global_world_state` sets exactly the projection matrix, view
matrix, view position, ambient colour and render mode (leaving the UI state
untouched); `update_global_ui_state` sets exactly the projection matrix, view
matrix and render mode (leaving the world state untouched); and every
subsequent `draw_geometry` call uses the values set by the most recent
matching setter call. -/
theorem c5_global_state_setters :
    (∀ g p v vp ac m, (update_global_world_state g p v vp ac m).world =
        ⟨p, v, vp, ac, m⟩ ∧
      (update_global_world_state g p v vp ac m).ui = g.ui) ∧
    (∀ g p v m, (update_global_ui_state g p v m).ui = ⟨p, v, m⟩ ∧
      (update_global_ui_state g p v m).world = g.world) ∧
    (∀ g data, (draw_geometry g data).globals_used = g) ∧
    (∀ g p v vp ac m data,
      (draw_geometry (update_global_world_state g p v vp ac m) data).globals_used.world =
        ⟨p, v, vp, ac, m⟩) ∧
    (∀ g p v m data,
      (draw_geometry (update_global_ui_state g p v m) data).globals_used.ui =
        ⟨p, v, m⟩) :=
  ⟨fun _ _ _ _ _ _ => ⟨rfl, rfl⟩,
   fun _ _ _ _ => ⟨rfl, rfl⟩,
   fun _ _ => rfl,
   fun _ _ _ _ _ _ _ => rfl,
   fun _ _ _ _ _ => rfl⟩

/-- C6: `create_material` and `create_geometry` report failure through their
b8 result (per the header their return type is b8 while the destroy
operations return void), and each is atomic on failure: a false result
leaves the resource state — in particular every GPU-side allocation list —
exactly unchanged. -/
theorem c6_create_atomic_on_failure :
    op_sig "create_material" = some ⟨"create_material", [.material_ptr], true⟩ ∧
    op_sig "create_geometry" = some ⟨"create_geometry",
      [.geometry_ptr, .u32_t, .u32_t, .const_void_ptr, .u32_t, .u32_t, .const_void_ptr],
      true⟩ ∧
    (∀ rs m ok, (create_material rs m ok).1 = false → (create_material rs m ok).2 = rs) ∧
    (∀ rs g vsz vc vtx isz ic idx ok,
      (create_geometry rs g vsz vc vtx isz ic idx ok).1 = false →
      (create_geometry rs g vsz vc vtx isz ic idx ok).2 = rs) := by
  refine ⟨by decide, by decide, ?_, ?_⟩
  · intro rs m ok h
    cases ok
    · rfl
    · simp [create_material] at h
  · intro rs g vsz vc vtx isz ic idx ok h
    cases ok
    · rfl
    · simp [create_geometry] at h

/-- C6 witness: a concrete failing create_material and a concrete failing
create_geometry each leave the empty resource state unchanged. -/
theorem c6_create_atomic_on_failure_witness :
    (create_material emptyResources ⟨0, []⟩ false).2 = emptyResources ∧
    (create_geometry emptyResources ⟨0⟩ 0 0 [] 0 0 [] false).2 = emptyResources :=
  ⟨c6_create_atomic_on_failure.2.2.1 emptyResources ⟨0, []⟩ false rfl,
   c6_create_atomic_on_failure.2.2.2 emptyResources ⟨0⟩ 0 0 [] 0 0 [] false rfl⟩

/-- C7: `create_texture` has no recoverable failure path at the interface:
its C return type is void (it cannot report failure to the caller through a
return value), and for every input the modelled operation succeeds, uploading
the pixel data as a GPU allocation and populating the backend-owned
`internal_data` field of the out texture. -/
theorem c7_create_texture_no_failure_path :
    op_sig "create_texture" =
      some ⟨"create_texture", [.const_u8_ptr, .texture_ptr], false⟩ ∧
    (∀ rs pixels t, (create_texture rs pixels t).1.internal_data = some t.id ∧
      (create_texture rs pixels t).1.id = t.id ∧
      (create_texture rs pixels t).2.texture_resources =
        ⟨t.id, pixels⟩ :: rs.texture_resources) :=
  ⟨by decide, fun _ _ _ => ⟨rfl, rfl, rfl⟩⟩

/-- C8: `destroy_material` is unconditional: its C return type is void (it
cannot fail), the modelled operation is total, and for every material and
every resource state it leaves the texture allocations (and the geometry
allocations) exactly unchanged — including when the material's referenced
textures are absent, i.e. were already destroyed. -/
theorem c8_destroy_material_leaves_textures :
    op_sig "destroy_material" =
      some ⟨"destroy_material", [.material_ptr], false⟩ ∧
    (∀ rs m, (destroy_material rs m).texture_resources = rs.texture_resources ∧
      (destroy_material rs m).geometry_resources = rs.geometry_resources) :=
  ⟨by decide, fun _ _ => ⟨rfl, rfl⟩⟩

/-- C10 is refuted by the header itself: the three state setters are not the
only operations without a backend parameter — `create_texture` (like all six
resource create/destroy operations) also receives no `renderer_backend*`. -/
theorem c10_counterexample :
    (renderer_backend_ops.filter (fun o => !takes_backend o)).map
        (fun o => o.name) ≠
      ["update_global_world_state", "update_global_ui_state", "draw_geometry"] ∧
    op_sig "create_texture" =
      some ⟨"create_texture", [.const_u8_ptr, .texture_ptr], false⟩ ∧
    takes_backend ⟨"create_texture", [.const_u8_ptr, .texture_ptr], false⟩ = false := by
  refine ⟨by decide, by decide, by decide⟩

/-- C10 (amended): `update_global_world_state`, `update_global_ui_state` and
`draw_geometry` receive no backend-instance parameter (they are not the only
such operations — the resource create/destroy operations receive none
either); consequently none of these three calls can modify any field of the
`renderer_backend` struct (in particular each leaves `frame_number`
unchanged), and their effect is independent of the backend struct's
contents (they cannot read it). -/
theorem c10_no_backend_access :
    ((op_sig "update_global_world_state").map takes_backend = some false) ∧
    ((op_sig "update_global_ui_state").map takes_backend = some false) ∧
    ((op_sig "draw_geometry").map takes_backend = some false) ∧
    (∀ s p v vp ac m,
      (step (.op_update_global_world_state p v vp ac m) s).backend = s.backend) ∧
    (∀ s p v m, (step (.op_update_global_ui_state p v m) s).backend = s.backend) ∧
    (∀ s data, (step (.op_draw_geometry data) s).backend = s.backend) ∧
    (∀ b b' intl p v vp ac m,
      (step (.op_update_global_world_state p v vp ac m) ⟨b, intl⟩).internal =
      (step (.op_update_global_world_state p v vp ac m) ⟨b', intl⟩).internal) ∧
    (∀ b b' intl p v m,
      (step (.op_update_global_ui_state p v m) ⟨b, intl⟩).internal =
      (step (.op_update_global_ui_state p v m) ⟨b', intl⟩).internal) ∧
    (∀ b b' intl data,
      (step (.op_draw_geometry data) ⟨b, intl⟩).internal =
      (step (.op_draw_geometry data) ⟨b', intl⟩).internal) :=
  ⟨by decide, by decide, by decide,
   fun _ _ _ _ _ _ => rfl,
   fun _ _ _ _ => rfl,
   fun _ _ => rfl,
   fun _ _ _ _ _ _ _ _ => rfl,
   fun _ _ _ _ _ _ => rfl,
   fun _ _ _ _ => rfl⟩
